import Mathlib

/-!
Shallow embedding of `src/Card.py` (repository Colin-Hanley/DataScraper).

The repository consists of a single class `Card` that, given a card name,
builds a Scryfall query URL, performs one fetch through an external JSON
collaborator (`fetch_json`), stores the parsed document, and exposes
read-only projections over nested fields.

Modelling decisions:
* Python/JSON values are the inductive `JSON`; Python `None` and JSON
  `null` coincide after parsing, both are `JSON.null`.
* Python truthiness is `pyTruthy`; `dict.get` is `pyDictGet`, which
  returns `Except.error` (an `AttributeError`) when applied to a
  non-mapping, exactly as Python would raise.
* The external collaborator is a call-indexed function
  `fetch : Nat → String → Except String JSON`; the system state
  `SysState` counts collaborator invocations and logs the URLs passed,
  so "called exactly once with URL u" is expressible.
* Each Python method is embedded in state-passing style: it receives the
  receiver `Card` and the `SysState` and returns its result together
  with the post-state of both, reflecting every assignment and every
  collaborator call the method body actually performs.
-/

namespace DataScraper

/-- A parsed JSON-shaped value (Python object after `json` decoding).
Python `None` and JSON `null` are both `JSON.null`. -/
inductive JSON where
  | null : JSON
  | bool (b : Bool) : JSON
  | num (n : Int) : JSON
  | str (s : String) : JSON
  | arr (elems : List JSON) : JSON
  | obj (fields : List (String × JSON)) : JSON

/-- Python truthiness of a JSON-shaped value: `None`, `False`, `0`, `""`,
`[]` and `{}` are falsy, everything else truthy. -/
def pyTruthy : JSON → Bool
  | JSON.null => false
  | JSON.bool b => b
  | JSON.num n => !(n == 0)
  | JSON.str s => !s.isEmpty
  | JSON.arr l => !l.isEmpty
  | JSON.obj l => !l.isEmpty

/-- Python `x.get(k)`: on a mapping, the value at `k` or `None` when the
key is missing; on any non-mapping it raises `AttributeError`. -/
def pyDictGet : JSON → String → Except String JSON
  | JSON.obj fields, k => Except.ok ((fields.lookup k).getD JSON.null)
  | _, _ => Except.error "AttributeError: object has no attribute get"

/-- Truthiness of the optional `sub_key` argument (`Optional[str]`):
`None` and the empty string are falsy. -/
def optStrTruthy : Option String → Bool
  | none => false
  | some s => !s.isEmpty

/-- The state of `Card` (`src/Card.py` attributes `name` and
`scryfall_response`); `scryfall_response = JSON.null` is Python `None`. -/
structure Card where
  name : String
  scryfall_response : JSON

/-- The external collaborator: behaviour of `fetch_json` on its k-th
invocation.  `Except.error e` models the collaborator raising. -/
structure FetchEnv where
  fetch : Nat → String → Except String JSON

/-- Instrumentation of the collaborator: how many times `fetch_json` has
been invoked and with which URLs. -/
structure SysState where
  callCount : Nat
  callLog : List String

/-- One invocation of the collaborator: returns its result and records
the call. -/
def doFetch (env : FetchEnv) (st : SysState) (url : String) : Except String JSON × SysState :=
  (env.fetch st.callCount url, SysState.mk (st.callCount + 1) (st.callLog ++ [url]))

/-- Embedding of `Card.get_base_scryfall_url` (src/Card.py:48-59): the f-string
`f"https://api.scryfall.com/cards/named?exact={name}"`. -/
def Card.get_base_scryfall_url (name : String) : String :=
  "https://api.scryfall.com/cards/named?exact=" ++ name

/-- Embedding of `Card.set_base_scryfall_response` (src/Card.py:61-69): builds the
URL, invokes the collaborator once; on success assigns the result to
`scryfall_response`, on any exception swallows it (the `print` is not
modelled) leaving the receiver unchanged. -/
def Card.set_base_scryfall_response (env : FetchEnv) (c : Card) (st : SysState) : Card × SysState :=
  match doFetch env st (Card.get_base_scryfall_url c.name) with
  | (Except.ok j, st2) => (Card.mk c.name j, st2)
  | (Except.error _, st2) => (c, st2)

/-- Embedding of `Card.__init__` (src/Card.py:28-37): sets `name`, sets
`scryfall_response = None`, then calls `set_base_scryfall_response`.
It is a total function into `Card × SysState`: construction never
raises, because `set_base_scryfall_response` catches every exception. -/
def Card.init (env : FetchEnv) (name : String) (st : SysState) : Card × SysState :=
  Card.set_base_scryfall_response env (Card.mk name JSON.null) st

/-- Embedding of `Card.get_value_from_base_scryfall_response` (src/Card.py:71-88),
state-passing: the body performs no assignment and no collaborator
call, so the receiver and system state are returned unchanged.
`Except.error` is a raised exception (from `.get` on a non-mapping). -/
def Card.get_value_from_base_scryfall_response (c : Card) (key : String) (sub_key : Option String) (st : SysState) : Except String JSON × Card × SysState :=
  (if pyTruthy c.scryfall_response then
    match pyDictGet c.scryfall_response key with
    | Except.error e => Except.error e
    | Except.ok data =>
      if optStrTruthy sub_key && pyTruthy data then
        pyDictGet data (sub_key.getD "")
      else
        Except.ok data
  else
    Except.ok JSON.null, c, st)

/-- Embedding of `Card.dollar_min_price` (src/Card.py:90-98). -/
def Card.dollar_min_price (c : Card) (st : SysState) : Except String JSON × Card × SysState :=
  Card.get_value_from_base_scryfall_response c "prices" (some "usd") st

/-- Embedding of `Card.euro_min_price` (src/Card.py:100-108). -/
def Card.euro_min_price (c : Card) (st : SysState) : Except String JSON × Card × SysState :=
  Card.get_value_from_base_scryfall_response c "prices" (some "eur") st

/-- Embedding of `Card.online_min_price` (src/Card.py:110-118). -/
def Card.online_min_price (c : Card) (st : SysState) : Except String JSON × Card × SysState :=
  Card.get_value_from_base_scryfall_response c "prices" (some "tix") st

/-- Embedding of `Card.__repr__` (src/Card.py:39-46): the f-string
`f"Card(name={self.name})"`. -/
def Card.reprStr (c : Card) (st : SysState) : String × Card × SysState :=
  ("Card(name=" ++ c.name ++ ")", c, st)

/-! ### Concrete fixtures used by witnesses -/

/-- The document `{"prices": {"usd": "1.00"}}`. -/
def docOne : JSON := JSON.obj [("prices", JSON.obj [("usd", JSON.str "1.00")])]

/-- The document `{"prices": {"usd": "2.00"}}`. -/
def docTwo : JSON := JSON.obj [("prices", JSON.obj [("usd", JSON.str "2.00")])]

/-- A collaborator answering `docOne` on its first invocation and
`docTwo` on every later one. -/
def twoDocEnv : FetchEnv := FetchEnv.mk (fun i _ => if i == 0 then Except.ok docOne else Except.ok docTwo)

/-! ### Helper lemmas -/

/-- A successful association-list lookup forces the list to be non-empty. -/
theorem lookup_some_isEmpty_false (l : List (String × JSON)) (k : String) (v : JSON) (h : l.lookup k = some v) : l.isEmpty = false := by
  cases l with
  | nil => simp [List.lookup] at h
  | cons a t => rfl

/-- A non-empty string is not `isEmpty`. -/
theorem ne_empty_isEmpty_false (s : String) (h : s ≠ "") : s.isEmpty = false := by
  cases hs : s.isEmpty with
  | true => exact absurd ((String.isEmpty_iff s).mp hs) h
  | false => rfl

/-! ### Claims -/

/-- Claim C1 (amended): for a stored document and keys, `getField`
(`get_value_from_base_scryfall_response`) returns `document[key]` when
the document is present and contains `key`; if a NON-EMPTY `subKey` is
also given it returns `document[key][subKey]` provided `document[key]`
is a present (non-null) mapping containing `subKey`; and it returns
absent (`None`) when the document is absent, when `key` is missing, or
when a `subKey` is given but `document[key]` is null/absent.  No
exception is raised for missing keys.  (An empty-string `subKey` is
falsy in Python and behaves as if no `subKey` were given.) -/
theorem C1_getField_contract (nm key : String) (doc : List (String × JSON)) (st : SysState) :
    (∀ v, doc.lookup key = some v →
      (Card.get_value_from_base_scryfall_response (Card.mk nm (JSON.obj doc)) key none st).1 = Except.ok v)
  ∧ (∀ sk inner w, sk ≠ "" → doc.lookup key = some (JSON.obj inner) → inner.lookup sk = some w →
      (Card.get_value_from_base_scryfall_response (Card.mk nm (JSON.obj doc)) key (some sk) st).1 = Except.ok w)
  ∧ (∀ sub_key, (Card.get_value_from_base_scryfall_response (Card.mk nm JSON.null) key sub_key st).1 = Except.ok JSON.null)
  ∧ (∀ sub_key, doc.lookup key = none →
      (Card.get_value_from_base_scryfall_response (Card.mk nm (JSON.obj doc)) key sub_key st).1 = Except.ok JSON.null)
  ∧ (∀ sk, doc.lookup key = some JSON.null →
      (Card.get_value_from_base_scryfall_response (Card.mk nm (JSON.obj doc)) key (some sk) st).1 = Except.ok JSON.null) := by
  refine ⟨?_, ?_, ?_, ?_, ?_⟩
  · intro v h
    have hne := lookup_some_isEmpty_false doc key v h
    simp [Card.get_value_from_base_scryfall_response, pyTruthy, pyDictGet, optStrTruthy, hne, h]
  · intro sk inner w hsk h hw
    have hne := lookup_some_isEmpty_false doc key (JSON.obj inner) h
    have hne2 := lookup_some_isEmpty_false inner sk w hw
    have hsk2 := ne_empty_isEmpty_false sk hsk
    simp [Card.get_value_from_base_scryfall_response, pyTruthy, pyDictGet, optStrTruthy, hne, hne2, hsk2, h, hw]
  · intro sub_key
    simp [Card.get_value_from_base_scryfall_response, pyTruthy]
  · intro sub_key h
    cases hd : doc.isEmpty with
    | true =>
      simp [Card.get_value_from_base_scryfall_response, pyTruthy, hd]
    | false =>
      cases sub_key with
      | none =>
        simp [Card.get_value_from_base_scryfall_response, pyTruthy, pyDictGet, optStrTruthy, hd, h]
      | some s =>
        simp [Card.get_value_from_base_scryfall_response, pyTruthy, pyDictGet, optStrTruthy, hd, h]
  · intro sk h
    have hne := lookup_some_isEmpty_false doc key JSON.null h
    simp [Card.get_value_from_base_scryfall_response, pyTruthy, pyDictGet, optStrTruthy, hne, h]

/-- Witness for C1: a concrete document `{"prices": {"usd": "1.23"}}`
exercises the present-key and nested-subKey conjuncts. -/
theorem C1_getField_contract_witness :
    (Card.get_value_from_base_scryfall_response (Card.mk "n" (JSON.obj [("prices", JSON.obj [("usd", JSON.str "1.23")])])) "prices" (some "usd") (SysState.mk 0 [])).1 = Except.ok (JSON.str "1.23")
  ∧ (Card.get_value_from_base_scryfall_response (Card.mk "n" JSON.null) "prices" (some "eur") (SysState.mk 0 [])).1 = Except.ok JSON.null := by
  refine ⟨?_, ?_⟩
  · exact (C1_getField_contract "n" "prices" [("prices", JSON.obj [("usd", JSON.str "1.23")])] (SysState.mk 0 [])).2.1 "usd" [("usd", JSON.str "1.23")] (JSON.str "1.23") (by simp) rfl rfl
  · exact (C1_getField_contract "n" "prices" [] (SysState.mk 0 [])).2.2.1 (some "eur")

/-- Counterexample to Claim C1 as stated: with `subKey = ""` (a given
string key) and `document[key]` a non-null mapping containing `""`, the
code returns `document[key]` itself, not `document[key][""]`, because
`if sub_key and data` treats the empty string as falsy. -/
theorem C1_empty_subKey_counterexample :
    (Card.get_value_from_base_scryfall_response (Card.mk "n" (JSON.obj [("a", JSON.obj [("", JSON.str "x")])])) "a" (some "") (SysState.mk 0 [])).1 = Except.ok (JSON.obj [("", JSON.str "x")])
  ∧ ([("", JSON.str "x")] : List (String × JSON)).lookup "" = some (JSON.str "x")
  ∧ JSON.obj [("", JSON.str "x")] ≠ JSON.str "x" := by
  refine ⟨rfl, rfl, ?_⟩
  intro h
  exact JSON.noConfusion h

/-- Claim C2: when the collaborator fails (raises), construction still
succeeds (`Card.init` is a total function into `Card × SysState`), the
document is left absent, and all three price projections return
absent. -/
theorem C2_fetch_failure_absorbed (env : FetchEnv) (st : SysState) (name e : String) (h : env.fetch st.callCount (Card.get_base_scryfall_url name) = Except.error e) :
    ((Card.init env name st).1).scryfall_response = JSON.null
  ∧ ((Card.init env name st).1).name = name
  ∧ (Card.dollar_min_price (Card.init env name st).1 st).1 = Except.ok JSON.null
  ∧ (Card.euro_min_price (Card.init env name st).1 st).1 = Except.ok JSON.null
  ∧ (Card.online_min_price (Card.init env name st).1 st).1 = Except.ok JSON.null := by
  simp [Card.init, Card.set_base_scryfall_response, doFetch, h, Card.dollar_min_price, Card.euro_min_price, Card.online_min_price, Card.get_value_from_base_scryfall_response, pyTruthy]

/-- Witness for C2: a collaborator that always raises. -/
theorem C2_fetch_failure_absorbed_witness :
    ((Card.init (FetchEnv.mk (fun _ _ => Except.error "network unreachable")) "Black Lotus" (SysState.mk 0 [])).1).scryfall_response = JSON.null
  ∧ ((Card.init (FetchEnv.mk (fun _ _ => Except.error "network unreachable")) "Black Lotus" (SysState.mk 0 [])).1).name = "Black Lotus"
  ∧ (Card.dollar_min_price (Card.init (FetchEnv.mk (fun _ _ => Except.error "network unreachable")) "Black Lotus" (SysState.mk 0 [])).1 (SysState.mk 0 [])).1 = Except.ok JSON.null
  ∧ (Card.euro_min_price (Card.init (FetchEnv.mk (fun _ _ => Except.error "network unreachable")) "Black Lotus" (SysState.mk 0 [])).1 (SysState.mk 0 [])).1 = Except.ok JSON.null
  ∧ (Card.online_min_price (Card.init (FetchEnv.mk (fun _ _ => Except.error "network unreachable")) "Black Lotus" (SysState.mk 0 [])).1 (SysState.mk 0 [])).1 = Except.ok JSON.null :=
  C2_fetch_failure_absorbed (FetchEnv.mk (fun _ _ => Except.error "network unreachable")) (SysState.mk 0 []) "Black Lotus" "network unreachable" rfl

/-- Claim C3: `get_base_scryfall_url` is a pure function of the name
and returns exactly the base string followed by the name substituted
verbatim (no URL-encoding); verbatim substitution is witnessed by the
map being injective on names. -/
theorem C3_url_construction (n : String) :
    Card.get_base_scryfall_url n = "https://api.scryfall.com/cards/named?exact=" ++ n
  ∧ (∀ n2, Card.get_base_scryfall_url n = Card.get_base_scryfall_url n2 → n = n2) := by
  refine ⟨rfl, ?_⟩
  intro n2 h
  have h2 : ("https://api.scryfall.com/cards/named?exact=" ++ n).data = ("https://api.scryfall.com/cards/named?exact=" ++ n2).data := congrArg String.data h
  simp only [String.data_append] at h2
  exact String.ext (List.append_cancel_left h2)

/-- Witness for C3 at the name from the end-to-end scenario of the spec. -/
theorem C3_url_construction_witness :
    Card.get_base_scryfall_url "Black Lotus" = "https://api.scryfall.com/cards/named?exact=" ++ "Black Lotus"
  ∧ "Black Lotus" = "Black Lotus" :=
  ⟨(C3_url_construction "Black Lotus").1,
   (C3_url_construction "Black Lotus").2 "Black Lotus" rfl⟩

/-- Claim C4: constructing a `Card` invokes the collaborator exactly
once, with the URL built from the name (the call log grows by exactly
that one URL and the call count by one); `getField`, the three price
projections and the debug representation never invoke the collaborator
(they leave the instrumentation state untouched). -/
theorem C4_fetch_exactly_once (env : FetchEnv) (st : SysState) (n : String) :
    ((Card.init env n st).2).callLog = st.callLog ++ [Card.get_base_scryfall_url n]
  ∧ ((Card.init env n st).2).callCount = st.callCount + 1
  ∧ (∀ c key sub_key st2, ((Card.get_value_from_base_scryfall_response c key sub_key st2).2).2 = st2)
  ∧ (∀ c st2, ((Card.dollar_min_price c st2).2).2 = st2)
  ∧ (∀ c st2, ((Card.euro_min_price c st2).2).2 = st2)
  ∧ (∀ c st2, ((Card.online_min_price c st2).2).2 = st2)
  ∧ (∀ c st2, ((Card.reprStr c st2).2).2 = st2) := by
  refine ⟨?_, ?_, fun c key sub_key st2 => rfl, fun c st2 => rfl, fun c st2 => rfl, fun c st2 => rfl, fun c st2 => rfl⟩
  · cases hf : env.fetch st.callCount (Card.get_base_scryfall_url n) with
    | ok j => simp [Card.init, Card.set_base_scryfall_response, doFetch, hf]
    | error e => simp [Card.init, Card.set_base_scryfall_response, doFetch, hf]
  · cases hf : env.fetch st.callCount (Card.get_base_scryfall_url n) with
    | ok j => simp [Card.init, Card.set_base_scryfall_response, doFetch, hf]
    | error e => simp [Card.init, Card.set_base_scryfall_response, doFetch, hf]

/-- Claim C5: each price projection is exactly
`getField("prices", c)` for the literal codes `usd`, `eur`, `tix`, and
returns the raw stored value with no parsing or conversion: on a
document `{"prices": {"usd": "1.23"}}` the USD projection returns the
string `"1.23"` unchanged while the EUR and tix projections return
absent. -/
theorem C5_price_projections (env : FetchEnv) (st st2 : SysState) (nm : String) (h : env.fetch st.callCount (Card.get_base_scryfall_url nm) = Except.ok (JSON.obj [("prices", JSON.obj [("usd", JSON.str "1.23")])])) :
    (∀ c st3, (Card.dollar_min_price c st3).1 = (Card.get_value_from_base_scryfall_response c "prices" (some "usd") st3).1)
  ∧ (∀ c st3, (Card.euro_min_price c st3).1 = (Card.get_value_from_base_scryfall_response c "prices" (some "eur") st3).1)
  ∧ (∀ c st3, (Card.online_min_price c st3).1 = (Card.get_value_from_base_scryfall_response c "prices" (some "tix") st3).1)
  ∧ (Card.dollar_min_price (Card.init env nm st).1 st2).1 = Except.ok (JSON.str "1.23")
  ∧ (Card.euro_min_price (Card.init env nm st).1 st2).1 = Except.ok JSON.null
  ∧ (Card.online_min_price (Card.init env nm st).1 st2).1 = Except.ok JSON.null := by
  refine ⟨fun c st3 => rfl, fun c st3 => rfl, fun c st3 => rfl, ?_, ?_, ?_⟩
  all_goals
    simp [Card.init, Card.set_base_scryfall_response, doFetch, h, Card.dollar_min_price, Card.euro_min_price, Card.online_min_price, Card.get_value_from_base_scryfall_response, pyTruthy, pyDictGet, optStrTruthy, List.lookup]
  all_goals decide

/-- Witness for C5: a collaborator answering with
`{"prices": {"usd": "1.23"}}`. -/
theorem C5_price_projections_witness :
    (Card.dollar_min_price (Card.init (FetchEnv.mk (fun _ _ => Except.ok (JSON.obj [("prices", JSON.obj [("usd", JSON.str "1.23")])]))) "n" (SysState.mk 0 [])).1 (SysState.mk 0 [])).1 = Except.ok (JSON.str "1.23")
  ∧ (Card.euro_min_price (Card.init (FetchEnv.mk (fun _ _ => Except.ok (JSON.obj [("prices", JSON.obj [("usd", JSON.str "1.23")])]))) "n" (SysState.mk 0 [])).1 (SysState.mk 0 [])).1 = Except.ok JSON.null
  ∧ (Card.online_min_price (Card.init (FetchEnv.mk (fun _ _ => Except.ok (JSON.obj [("prices", JSON.obj [("usd", JSON.str "1.23")])]))) "n" (SysState.mk 0 [])).1 (SysState.mk 0 [])).1 = Except.ok JSON.null :=
  ⟨(C5_price_projections (FetchEnv.mk (fun _ _ => Except.ok (JSON.obj [("prices", JSON.obj [("usd", JSON.str "1.23")])]))) (SysState.mk 0 []) (SysState.mk 0 []) "n" rfl).2.2.2.1,
   (C5_price_projections (FetchEnv.mk (fun _ _ => Except.ok (JSON.obj [("prices", JSON.obj [("usd", JSON.str "1.23")])]))) (SysState.mk 0 []) (SysState.mk 0 []) "n" rfl).2.2.2.2.1,
   (C5_price_projections (FetchEnv.mk (fun _ _ => Except.ok (JSON.obj [("prices", JSON.obj [("usd", JSON.str "1.23")])]))) (SysState.mk 0 []) (SysState.mk 0 []) "n" rfl).2.2.2.2.2⟩

/-- Claim C6: on every constructed `Card`, the document is either fully
absent or exactly the value returned by the single fetch performed at
construction — never partial, merged, or mutated: every
post-construction operation returns the receiver with its document
unchanged. -/
theorem C6_document_invariant (env : FetchEnv) (st : SysState) (n : String) :
    (((Card.init env n st).1).scryfall_response = JSON.null
      ∨ ∃ j, env.fetch st.callCount (Card.get_base_scryfall_url n) = Except.ok j
          ∧ ((Card.init env n st).1).scryfall_response = j)
  ∧ (∀ c key sub_key st2, (((Card.get_value_from_base_scryfall_response c key sub_key st2).2).1).scryfall_response = c.scryfall_response)
  ∧ (∀ c st2, (((Card.dollar_min_price c st2).2).1).scryfall_response = c.scryfall_response)
  ∧ (∀ c st2, (((Card.euro_min_price c st2).2).1).scryfall_response = c.scryfall_response)
  ∧ (∀ c st2, (((Card.online_min_price c st2).2).1).scryfall_response = c.scryfall_response)
  ∧ (∀ c st2, (((Card.reprStr c st2).2).1).scryfall_response = c.scryfall_response) := by
  refine ⟨?_, fun c key sub_key st2 => rfl, fun c st2 => rfl, fun c st2 => rfl, fun c st2 => rfl, fun c st2 => rfl⟩
  cases hf : env.fetch st.callCount (Card.get_base_scryfall_url n) with
  | ok j =>
    refine Or.inr ⟨j, rfl, ?_⟩
    simp [Card.init, Card.set_base_scryfall_response, doFetch, hf]
  | error e =>
    left
    simp [Card.init, Card.set_base_scryfall_response, doFetch, hf]

/-- Claim C7: all post-construction operations are read-only — calling
`getField` with any key/subKey, reading any price projection, or taking
the debug representation leaves both `name` and `scryfall_response`
unchanged. -/
theorem C7_operations_read_only (c : Card) (st : SysState) :
    (∀ key sub_key, (((Card.get_value_from_base_scryfall_response c key sub_key st).2).1).name = c.name
      ∧ (((Card.get_value_from_base_scryfall_response c key sub_key st).2).1).scryfall_response = c.scryfall_response)
  ∧ ((((Card.dollar_min_price c st).2).1).name = c.name ∧ (((Card.dollar_min_price c st).2).1).scryfall_response = c.scryfall_response)
  ∧ ((((Card.euro_min_price c st).2).1).name = c.name ∧ (((Card.euro_min_price c st).2).1).scryfall_response = c.scryfall_response)
  ∧ ((((Card.online_min_price c st).2).1).name = c.name ∧ (((Card.online_min_price c st).2).1).scryfall_response = c.scryfall_response)
  ∧ ((((Card.reprStr c st).2).1).name = c.name ∧ (((Card.reprStr c st).2).1).scryfall_response = c.scryfall_response) :=
  ⟨fun _ _ => ⟨rfl, rfl⟩, ⟨rfl, rfl⟩, ⟨rfl, rfl⟩, ⟨rfl, rfl⟩, ⟨rfl, rfl⟩⟩

/-- Claim C8: two `Card`s constructed with the same name against a
collaborator that answers differently on each call hold independent
documents — the first holds exactly the first answer, the second the
second answer — and `getField` (hence every price projection) depends
only on the own document of the instance, so no cache is shared across
instances. -/
theorem C8_instance_independence (env : FetchEnv) (n : String) (d1 d2 : JSON) (st0 : SysState) (h0 : st0.callCount = 0) (h1 : env.fetch 0 (Card.get_base_scryfall_url n) = Except.ok d1) (h2 : env.fetch 1 (Card.get_base_scryfall_url n) = Except.ok d2) :
    ((Card.init env n st0).1).scryfall_response = d1
  ∧ ((Card.init env n ((Card.init env n st0).2)).1).scryfall_response = d2
  ∧ (∀ c c2 key sub_key st st2, c.scryfall_response = c2.scryfall_response →
      (Card.get_value_from_base_scryfall_response c key sub_key st).1 = (Card.get_value_from_base_scryfall_response c2 key sub_key st2).1) := by
  refine ⟨?_, ?_, ?_⟩
  · simp [Card.init, Card.set_base_scryfall_response, doFetch, h0, h1]
  · simp [Card.init, Card.set_base_scryfall_response, doFetch, h0, h1, h2]
  · intro c c2 key sub_key st st2 hcc
    simp only [Card.get_value_from_base_scryfall_response]
    rw [hcc]

/-- Witness for C8: a collaborator answering `usd = "1.00"` on its
first call and `usd = "2.00"` on every later call; the two instances
end up with the two different documents and differing USD
projections. -/
theorem C8_instance_independence_witness :
    ((Card.init twoDocEnv "Black Lotus" (SysState.mk 0 [])).1).scryfall_response = docOne
  ∧ ((Card.init twoDocEnv "Black Lotus" ((Card.init twoDocEnv "Black Lotus" (SysState.mk 0 [])).2)).1).scryfall_response = docTwo := by
  refine ⟨?_, ?_⟩
  · exact (C8_instance_independence twoDocEnv "Black Lotus" docOne docTwo (SysState.mk 0 []) rfl rfl rfl).1
  · exact (C8_instance_independence twoDocEnv "Black Lotus" docOne docTwo (SysState.mk 0 []) rfl rfl rfl).2.1

/-- Claim C9: when the document is present and the value stored at
`key` is present but falsy (empty mapping, zero, empty string, or even
null), a given `subKey` lookup is skipped and the falsy value itself is
returned, because `if sub_key and data` tests truthiness, not
presence. -/
theorem C9_falsy_value_skips_subkey (nm key sk : String) (doc : List (String × JSON)) (v : JSON) (st : SysState) (h : doc.lookup key = some v) (hf : pyTruthy v = false) :
    (Card.get_value_from_base_scryfall_response (Card.mk nm (JSON.obj doc)) key (some sk) st).1 = Except.ok v := by
  have hne := lookup_some_isEmpty_false doc key v h
  have houter : pyTruthy (JSON.obj doc) = true := by simp [pyTruthy, hne]
  simp [Card.get_value_from_base_scryfall_response, pyDictGet, optStrTruthy, houter, h, hf]

/-- Witness for C9: the three falsy examples `{}`, `0` and `""` stored
under `"k"`, each queried with subKey `"s"`, are returned themselves. -/
theorem C9_falsy_value_skips_subkey_witness :
    (Card.get_value_from_base_scryfall_response (Card.mk "n" (JSON.obj [("k", JSON.obj [])])) "k" (some "s") (SysState.mk 0 [])).1 = Except.ok (JSON.obj [])
  ∧ (Card.get_value_from_base_scryfall_response (Card.mk "n" (JSON.obj [("k", JSON.num 0)])) "k" (some "s") (SysState.mk 0 [])).1 = Except.ok (JSON.num 0)
  ∧ (Card.get_value_from_base_scryfall_response (Card.mk "n" (JSON.obj [("k", JSON.str "")])) "k" (some "s") (SysState.mk 0 [])).1 = Except.ok (JSON.str "") :=
  ⟨C9_falsy_value_skips_subkey "n" "k" "s" [("k", JSON.obj [])] (JSON.obj []) (SysState.mk 0 []) rfl rfl,
   C9_falsy_value_skips_subkey "n" "k" "s" [("k", JSON.num 0)] (JSON.num 0) (SysState.mk 0 []) rfl rfl,
   C9_falsy_value_skips_subkey "n" "k" "s" [("k", JSON.str "")] (JSON.str "") (SysState.mk 0 []) rfl rfl⟩

/-- Counterexample to Claim C10 as stated: on the string-keyed mapping
`{"k": "v"}` the call `getField("k", "s")` raises (`"v".get("s")` is an
`AttributeError` on a non-mapping), so `getField` is not
exception-free for every string-keyed document and every key/subKey
combination. -/
theorem C10_nonmapping_subkey_counterexample :
    (Card.get_value_from_base_scryfall_response (Card.mk "n" (JSON.obj [("k", JSON.str "v")])) "k" (some "s") (SysState.mk 0 [])).1 = Except.error "AttributeError: object has no attribute get" := rfl

/-- Claim C10 (amended): `getField` never raises — always returns a
value, with `None` as the uniform absence signal — whenever the
document is absent or is a string-keyed mapping, PROVIDED that when a
non-empty `subKey` is given and the value at `key` is truthy, that
value is itself a mapping; the sole raising case is a truthy non-empty
`subKey` together with a truthy non-mapping value at `key`. -/
theorem C10_getField_total (nm key : String) (sub_key : Option String) (doc : List (String × JSON)) (st : SysState) (hsafe : ∀ s v, sub_key = some s → s ≠ "" → doc.lookup key = some v → pyTruthy v = true → ∃ l, v = JSON.obj l) :
    (∃ r, (Card.get_value_from_base_scryfall_response (Card.mk nm (JSON.obj doc)) key sub_key st).1 = Except.ok r)
  ∧ (∀ k2 sk2, ∃ r, (Card.get_value_from_base_scryfall_response (Card.mk nm JSON.null) k2 sk2 st).1 = Except.ok r) := by
  refine ⟨?_, fun k2 sk2 => ⟨JSON.null, by simp [Card.get_value_from_base_scryfall_response, pyTruthy]⟩⟩
  cases hd : doc.isEmpty with
  | true => exact ⟨JSON.null, by simp [Card.get_value_from_base_scryfall_response, pyTruthy, hd]⟩
  | false =>
    cases hsub : optStrTruthy sub_key with
    | false =>
      refine ⟨(doc.lookup key).getD JSON.null, ?_⟩
      simp [Card.get_value_from_base_scryfall_response, pyTruthy, pyDictGet, hd, hsub]
    | true =>
      cases hl : doc.lookup key with
      | none =>
        refine ⟨JSON.null, ?_⟩
        simp [Card.get_value_from_base_scryfall_response, pyTruthy, pyDictGet, hd, hsub, hl]
      | some v =>
        cases hv : pyTruthy v with
        | false =>
          refine ⟨v, ?_⟩
          have houter : pyTruthy (JSON.obj doc) = true := by simp [pyTruthy, hd]
          simp [Card.get_value_from_base_scryfall_response, pyDictGet, houter, hl, hv]
        | true =>
          obtain ⟨s, hs⟩ : ∃ s, sub_key = some s := by
            cases sub_key with
            | none => simp [optStrTruthy] at hsub
            | some s => exact ⟨s, rfl⟩
          have hse : s.isEmpty = false := by
            rw [hs] at hsub
            simpa [optStrTruthy] using hsub
          have hsne : s ≠ "" := fun hcon => by
            rw [hcon] at hse
            simp [String.isEmpty] at hse
          obtain ⟨l, hvl⟩ := hsafe s v hs hsne hl hv
          refine ⟨(l.lookup s).getD JSON.null, ?_⟩
          subst hvl
          have houter : pyTruthy (JSON.obj doc) = true := by simp [pyTruthy, hd]
          have hsubs : optStrTruthy (some s) = true := by
            rw [hs] at hsub
            exact hsub
          simp [Card.get_value_from_base_scryfall_response, pyDictGet, houter, hl, hs, hsubs, hv]

/-- Witness for C10 (amended): the document
`{"prices": {"usd": "1.23"}}` with key `"prices"` and subKey `"usd"`
satisfies the proviso and yields a value without raising. -/
theorem C10_getField_total_witness :
    ∃ r, (Card.get_value_from_base_scryfall_response (Card.mk "n" (JSON.obj [("prices", JSON.obj [("usd", JSON.str "1.23")])])) "prices" (some "usd") (SysState.mk 0 [])).1 = Except.ok r :=
  (C10_getField_total "n" "prices" (some "usd") [("prices", JSON.obj [("usd", JSON.str "1.23")])] (SysState.mk 0 [])
    (fun s v _ _ hl _ => by
      simp [List.lookup] at hl
      exact ⟨[("usd", JSON.str "1.23")], hl.symm⟩)).1

end DataScraper
